import Mathlib

/-!
# Verification of the fuse request dispatcher (server.go)

A shallow embedding of the dispatcher in `server.go` of the `fuse` package:
the wire-level (bazil) request and response shapes, the internal domain
request and response types, the attribute conversion helper
`convertAttributes`, the per-request handler `handleFuseRequest`, and the
`Serve` read loop.

The handler is embedded as a function producing a trace of observable
events (log lines, provider calls, clock readings, and the reply sent on
the original request handle), in the order the Go code performs them.
Go's `time.Time` is embedded as `Int` (nanoseconds since an arbitrary
epoch) and `time.Duration` as `Int` (so a negative duration is
representable, as it is in Go); `Time.Sub` is integer subtraction.
Unsigned integer fields are embedded as `Nat` (no arithmetic is performed
on them, only copying, so overflow is not in play).
-/

namespace Bazil

/-- Wire-level Init request: the dispatcher reads `Header.Uid` and
`Header.Gid` from it. -/
structure InitRequest where
  Uid : Nat
  Gid : Nat
deriving DecidableEq

/-- Wire-level Lookup request: header node (the parent) and the child name. -/
structure LookupRequest where
  Node : Nat
  Name : String
deriving DecidableEq

/-- Wire-level Getattr request: the target node. -/
structure GetattrRequest where
  Node : Nat
deriving DecidableEq

/-- Wire-level Open request: target node, open flags, and the
directory-vs-file flag. -/
structure OpenRequest where
  Node : Nat
  Flags : Nat
  Dir : Bool
deriving DecidableEq

/-- Wire-level Read request: target node, handle, offset, requested size,
and the directory-vs-file flag. -/
structure ReadRequest where
  Node : Nat
  Handle : Nat
  Offset : Int
  Size : Nat
  Dir : Bool
deriving DecidableEq

/-- Wire-level attribute structure filled by `convertAttributes`. -/
structure Attr where
  Inode : Nat
  Size : Nat
  Mode : Nat
  Atime : Int
  Mtime : Int
  Crtime : Int
  Uid : Nat
  Gid : Nat
deriving DecidableEq

/-- The wire-level request variants dispatched over by `handleFuseRequest`;
`otherReq` stands for any request kind outside the known set (the `default`
arm of the type switch), tagged so that distinct unrecognized kinds are
distinguishable. -/
inductive Request
  | initReq (r : InitRequest)
  | statfsReq
  | lookupReq (r : LookupRequest)
  | getattrReq (r : GetattrRequest)
  | openReq (r : OpenRequest)
  | readReq (r : ReadRequest)
  | otherReq (kind : Nat)
deriving DecidableEq

/-- The wire-level response variants the dispatcher can send with
`Respond`. -/
inductive Response
  | initResp
  | statfsResp
  | lookupResp (Node : Nat) (Generation : Nat) (Attr : Attr)
      (AttrValid : Int) (EntryValid : Int)
  | getattrResp (Attr : Attr) (AttrValid : Int)
  | openResp (Handle : Nat)
  | readResp (Data : List Nat)
deriving DecidableEq

end Bazil

/-- Internal inode identifier (`type InodeID uint64`). -/
abbrev InodeID := Nat

/-- Internal handle identifier (`type HandleID uint64`). -/
abbrev HandleID := Nat

/-- Internal directory offset (`type DirOffset`). -/
abbrev DirOffset := Int

/-- Errors usable as a reply: `enosys` is the fixed "operation not
supported" errno the dispatcher itself produces; `errorCode` stands for any
other error value a provider may return. -/
inductive FsError
  | enosys
  | errorCode (code : Nat)
deriving DecidableEq

/-- The ENOSYS ("operation not supported") error value used by the
dispatcher. -/
def ENOSYS : FsError := FsError.enosys

/-- Internal attribute snapshot (`InodeAttributes`): the fields
`convertAttributes` copies to the wire form. -/
structure InodeAttributes where
  Size : Nat
  Mode : Nat
  Atime : Int
  Mtime : Int
  Crtime : Int
  Uid : Nat
  Gid : Nat
deriving DecidableEq

/-- Internal Init request built by the handler from the wire header. -/
structure InitRequest where
  Uid : Nat
  Gid : Nat
deriving DecidableEq

/-- Internal Init response (its contents are ignored by the handler). -/
structure InitResponse
deriving DecidableEq

/-- Internal LookUpInode request: parent inode and child name. -/
structure LookUpInodeRequest where
  Parent : InodeID
  Name : String
deriving DecidableEq

/-- Internal LookUpInode response: the fields read by the handler
(`Child`, `Generation`, `Attributes`, `AttributesExpiration`,
`EntryExpiration`). Expirations are absolute times. -/
structure LookUpInodeResponse where
  Child : InodeID
  Generation : Nat
  Attributes : InodeAttributes
  AttributesExpiration : Int
  EntryExpiration : Int
deriving DecidableEq

/-- Internal GetInodeAttributes request: the target inode. -/
structure GetInodeAttributesRequest where
  Inode : InodeID
deriving DecidableEq

/-- Internal GetInodeAttributes response: attributes and their absolute
expiration time. -/
structure GetInodeAttributesResponse where
  Attributes : InodeAttributes
  AttributesExpiration : Int
deriving DecidableEq

/-- Internal OpenDir request: inode and open flags. -/
structure OpenDirRequest where
  Inode : InodeID
  Flags : Nat
deriving DecidableEq

/-- Internal OpenDir response: the handle. -/
structure OpenDirResponse where
  Handle : HandleID
deriving DecidableEq

/-- Internal ReadDir request: inode, handle, offset and requested size. -/
structure ReadDirRequest where
  Inode : InodeID
  Handle : HandleID
  Offset : DirOffset
  Size : Nat
deriving DecidableEq

/-- Internal ReadDir response: the raw listing bytes. -/
structure ReadDirResponse where
  Data : List Nat
deriving DecidableEq

/-- The filesystem provider capability (the `FileSystem` interface as used
by the server): each operation is a request to response-or-error function.
The `ctx` argument of the Go interface carries no information used by this
server (`context.Background()`) and is omitted. -/
structure FileSystem where
  Init : InitRequest → Except FsError InitResponse
  LookUpInode : LookUpInodeRequest → Except FsError LookUpInodeResponse
  GetInodeAttributes :
    GetInodeAttributesRequest → Except FsError GetInodeAttributesResponse
  OpenDir : OpenDirRequest → Except FsError OpenDirResponse
  ReadDir : ReadDirRequest → Except FsError ReadDirResponse

/-- Observable events of one per-request handler execution, in program
order: the logging statements, the provider call, readings of the injected
clock, and the single reply (`Respond` or `RespondError`) on the original
wire request. -/
inductive Event
  | logReceived
  | logResponding
  | logUnsupported
  | callInit (req : InitRequest)
  | callLookUpInode (req : LookUpInodeRequest)
  | callGetInodeAttributes (req : GetInodeAttributesRequest)
  | callOpenDir (req : OpenDirRequest)
  | callReadDir (req : ReadDirRequest)
  | clockNow (t : Int)
  | respond (resp : Bazil.Response)
  | respondError (e : FsError)
deriving DecidableEq

/-- Attribute conversion (`convertAttributes` in server.go): copies the
inode identifier and each attribute field unchanged into the wire `Attr`. -/
def convertAttributes (inode : InodeID) (attr : InodeAttributes) : Bazil.Attr :=
  { Inode := inode
    Size := attr.Size
    Mode := attr.Mode
    Atime := attr.Atime
    Mtime := attr.Mtime
    Crtime := attr.Crtime
    Uid := attr.Uid
    Gid := attr.Gid }

/-- The per-request handler (`handleFuseRequest` in server.go), embedded as
the trace of events it performs, in program order. `clock n` is the value
returned by the n-th call to `s.clock.Now()` made by this handler
execution; in the Lookup arm Go evaluates the composite-literal fields in
source order, so the first reading goes to `AttrValid` and the second to
`EntryValid`. -/
def handleFuseRequest (s : FileSystem) (clock : Nat → Int) :
    Bazil.Request → List Event
  | Bazil.Request.initReq typed =>
      let req : InitRequest := { Uid := typed.Uid, Gid := typed.Gid }
      Event.logReceived :: Event.callInit req ::
        (match s.Init req with
         | Except.error err =>
             [Event.logResponding, Event.respondError err]
         | Except.ok _ =>
             [Event.logResponding, Event.respond Bazil.Response.initResp])
  | Bazil.Request.statfsReq =>
      [Event.logReceived, Event.logResponding,
       Event.respond Bazil.Response.statfsResp]
  | Bazil.Request.lookupReq typed =>
      let req : LookUpInodeRequest :=
        { Parent := typed.Node, Name := typed.Name }
      Event.logReceived :: Event.callLookUpInode req ::
        (match s.LookUpInode req with
         | Except.error err =>
             [Event.logResponding, Event.respondError err]
         | Except.ok resp =>
             let t0 := clock 0
             let t1 := clock 1
             let fuseResp := Bazil.Response.lookupResp resp.Child
               resp.Generation
               (convertAttributes resp.Child resp.Attributes)
               (resp.AttributesExpiration - t0)
               (resp.EntryExpiration - t1)
             [Event.clockNow t0, Event.clockNow t1, Event.logResponding,
              Event.respond fuseResp])
  | Bazil.Request.getattrReq typed =>
      let req : GetInodeAttributesRequest := { Inode := typed.Node }
      Event.logReceived :: Event.callGetInodeAttributes req ::
        (match s.GetInodeAttributes req with
         | Except.error err =>
             [Event.logResponding, Event.respondError err]
         | Except.ok resp =>
             let t0 := clock 0
             let fuseResp := Bazil.Response.getattrResp
               (convertAttributes req.Inode resp.Attributes)
               (resp.AttributesExpiration - t0)
             [Event.clockNow t0, Event.logResponding,
              Event.respond fuseResp])
  | Bazil.Request.openReq typed =>
      Event.logReceived ::
        (if typed.Dir then
           let req : OpenDirRequest :=
             { Inode := typed.Node, Flags := typed.Flags }
           Event.callOpenDir req ::
             (match s.OpenDir req with
              | Except.error err =>
                  [Event.logResponding, Event.respondError err]
              | Except.ok resp =>
                  [Event.logResponding,
                   Event.respond (Bazil.Response.openResp resp.Handle)])
         else
           [Event.logUnsupported, Event.respondError ENOSYS])
  | Bazil.Request.readReq typed =>
      Event.logReceived ::
        (if typed.Dir then
           let req : ReadDirRequest :=
             { Inode := typed.Node, Handle := typed.Handle,
               Offset := typed.Offset, Size := typed.Size }
           Event.callReadDir req ::
             (match s.ReadDir req with
              | Except.error err =>
                  [Event.logResponding, Event.respondError err]
              | Except.ok resp =>
                  [Event.logResponding,
                   Event.respond (Bazil.Response.readResp resp.Data)])
         else
           [Event.logUnsupported, Event.respondError ENOSYS])
  | Bazil.Request.otherReq _ =>
      [Event.logReceived, Event.logUnsupported, Event.respondError ENOSYS]

/-- Outcome of one `Conn.ReadRequest` call: a decoded request, the
end-of-stream signal (`io.EOF`), or another transport failure (carrying an
abstract error code). -/
inductive ReadResult
  | request (req : Bazil.Request)
  | eof
  | failure (e : Nat)
deriving DecidableEq

/-- The stage name the serve loop wraps a read failure with. -/
def readRequestStage : String := "Conn.ReadRequest"

/-- The value `Serve` returns: `ok` is a nil error (clean shutdown on
end-of-stream); `wrappedError` is the read failure wrapped with the failing
stage (`fmt.Errorf` with the stage name and the error). -/
inductive ServeResult
  | ok
  | wrappedError (stage : String) (e : Nat)
deriving DecidableEq

/-- The serve loop (`Serve` in server.go), embedded over the finite
transcript of successive `Conn.ReadRequest` outcomes. It returns the list
of requests accepted (each handed to its own goroutine, in read order) and
the error value `Serve` returns; `none` means the transcript was exhausted
with the loop still blocked reading. -/
def serveLoop : List ReadResult → Option (List Bazil.Request × ServeResult)
  | [] => none
  | ReadResult.eof :: _ => some ([], ServeResult.ok)
  | ReadResult.failure e :: _ =>
      some ([], ServeResult.wrappedError readRequestStage e)
  | ReadResult.request req :: rest =>
      match serveLoop rest with
      | none => none
      | some (reqs, out) => some (req :: reqs, out)

/-- The requests appearing in a read transcript, in transport order. -/
def readsRequests (reads : List ReadResult) : List Bazil.Request :=
  reads.filterMap (fun r =>
    match r with
    | ReadResult.request req => some req
    | _ => none)

/-- Whether an event is a reply on the wire request (a `Respond` or a
`RespondError`). -/
def isReply : Event → Bool
  | Event.respond _ => true
  | Event.respondError _ => true
  | Event.logReceived => false
  | Event.logResponding => false
  | Event.logUnsupported => false
  | Event.callInit _ => false
  | Event.callLookUpInode _ => false
  | Event.callGetInodeAttributes _ => false
  | Event.callOpenDir _ => false
  | Event.callReadDir _ => false
  | Event.clockNow _ => false

/-- Number of replies in a trace. -/
def countReplies (trace : List Event) : Nat :=
  (trace.filter isReply).length

/-- Whether an event is an invocation of a provider operation. -/
def isProviderCall : Event → Bool
  | Event.callInit _ => true
  | Event.callLookUpInode _ => true
  | Event.callGetInodeAttributes _ => true
  | Event.callOpenDir _ => true
  | Event.callReadDir _ => true
  | Event.logReceived => false
  | Event.logResponding => false
  | Event.logUnsupported => false
  | Event.clockNow _ => false
  | Event.respond _ => false
  | Event.respondError _ => false

/-- Number of provider invocations in a trace. -/
def countProviderCalls (trace : List Event) : Nat :=
  (trace.filter isProviderCall).length

/-- Whether an event is a reading of the injected clock. -/
def isClockRead : Event → Bool
  | Event.clockNow _ => true
  | Event.logReceived => false
  | Event.logResponding => false
  | Event.logUnsupported => false
  | Event.callInit _ => false
  | Event.callLookUpInode _ => false
  | Event.callGetInodeAttributes _ => false
  | Event.callOpenDir _ => false
  | Event.callReadDir _ => false
  | Event.respond _ => false
  | Event.respondError _ => false

/-- Number of clock readings in a trace. -/
def countClockReads (trace : List Event) : Nat :=
  (trace.filter isClockRead).length

/-- The combined observable trace of running the spawned per-request tasks
to completion in the given order (one possible completion order of the
concurrently scheduled goroutines). -/
def concurrentTrace (s : FileSystem) (clock : Nat → Int)
    (order : List Bazil.Request) : List Event :=
  (order.map (handleFuseRequest s clock)).flatten

/-! ## Concrete fixtures used by witness theorems -/

/-- A concrete attribute snapshot. -/
def attrsA : InodeAttributes :=
  { Size := 100, Mode := 420, Atime := 10, Mtime := 20, Crtime := 30,
    Uid := 1000, Gid := 1001 }

/-- A concrete successful LookUpInode response; with the origin `T0 = 0`,
its attribute expiration is `T0 + 5` and its entry expiration `T0 + 9`. -/
def lookRespA : LookUpInodeResponse :=
  { Child := 7, Generation := 3, Attributes := attrsA,
    AttributesExpiration := 5, EntryExpiration := 9 }

/-- A concrete successful GetInodeAttributes response. -/
def getattrRespA : GetInodeAttributesResponse :=
  { Attributes := attrsA, AttributesExpiration := 5 }

/-- A provider whose operations all succeed, with fixed responses. -/
def fsOk : FileSystem :=
  { Init := fun _ => Except.ok InitResponse.mk
    LookUpInode := fun _ => Except.ok lookRespA
    GetInodeAttributes := fun _ => Except.ok getattrRespA
    OpenDir := fun _ => Except.ok { Handle := 11 }
    ReadDir := fun _ => Except.ok { Data := [1, 2, 3] } }

/-- A provider whose operations all fail with error code 13. -/
def fsErr : FileSystem :=
  { Init := fun _ => Except.error (FsError.errorCode 13)
    LookUpInode := fun _ => Except.error (FsError.errorCode 13)
    GetInodeAttributes := fun _ => Except.error (FsError.errorCode 13)
    OpenDir := fun _ => Except.error (FsError.errorCode 13)
    ReadDir := fun _ => Except.error (FsError.errorCode 13) }

/-- A LookUpInode response whose expirations are already in the past once
the clock reads 5: both absolute expirations are 0. -/
def lookRespExpired : LookUpInodeResponse :=
  { Child := 7, Generation := 3, Attributes := attrsA,
    AttributesExpiration := 0, EntryExpiration := 0 }

/-- A provider whose LookUpInode succeeds with already-expired times. -/
def fsExpired : FileSystem :=
  { fsOk with LookUpInode := fun _ => Except.ok lookRespExpired }

/-- A clock whose n-th reading is `2 + n` (with origin `T0 = 0`, the first
reading is `T0 + 2`). -/
def clockA : Nat → Int := fun n => 2 + n

/-- A clock stuck at 5, later than the expirations of `lookRespExpired`. -/
def clock5 : Nat → Int := fun _ => 5

/-- The child name used in lookup witnesses. -/
def childName : String := "a"

/-- The child name of the error-passthrough example. -/
def missingName : String := "missing"

/-- Concrete requests for the serve-loop and concurrency witnesses. -/
def reqW1 : Bazil.Request := Bazil.Request.statfsReq

/-- A second concrete request, of an unrecognized kind. -/
def reqW2 : Bazil.Request := Bazil.Request.otherReq 99

/-- A read transcript: two requests, then end-of-stream. -/
def readsW : List ReadResult :=
  [ReadResult.request reqW1, ReadResult.request reqW2, ReadResult.eof]

/-! ## Helper lemmas -/

/-- Unfolding lemma for the serve loop at a successfully read request. -/
theorem serveLoop_cons_request (req : Bazil.Request) (rest : List ReadResult) :
    serveLoop (ReadResult.request req :: rest) =
      match serveLoop rest with
      | none => none
      | some (reqs, out) => some (req :: reqs, out) := rfl

/-- Reply counting distributes over trace concatenation. -/
theorem countReplies_append (a b : List Event) :
    countReplies (a ++ b) = countReplies a + countReplies b := by
  simp [countReplies, List.filter_append]

/-- Reply counting is invariant under permutation of the trace. -/
theorem countReplies_perm {a b : List Event} (h : a.Perm b) :
    countReplies a = countReplies b := by
  simpa [countReplies] using (h.filter isReply).length_eq

/-- Every branch of the handler sends exactly one reply. -/
theorem countReplies_handle (s : FileSystem) (clock : Nat → Int)
    (req : Bazil.Request) :
    countReplies (handleFuseRequest s clock req) = 1 := by
  cases req with
  | initReq typed =>
      cases h : s.Init { Uid := typed.Uid, Gid := typed.Gid } with
      | error e => simp [handleFuseRequest, h, countReplies, isReply]
      | ok r => simp [handleFuseRequest, h, countReplies, isReply]
  | statfsReq => simp [handleFuseRequest, countReplies, isReply]
  | lookupReq typed =>
      cases h : s.LookUpInode { Parent := typed.Node, Name := typed.Name } with
      | error e => simp [handleFuseRequest, h, countReplies, isReply]
      | ok r => simp [handleFuseRequest, h, countReplies, isReply]
  | getattrReq typed =>
      cases h : s.GetInodeAttributes { Inode := typed.Node } with
      | error e => simp [handleFuseRequest, h, countReplies, isReply]
      | ok r => simp [handleFuseRequest, h, countReplies, isReply]
  | openReq typed =>
      cases hd : typed.Dir with
      | false => simp [handleFuseRequest, hd, countReplies, isReply]
      | true =>
          cases h : s.OpenDir { Inode := typed.Node, Flags := typed.Flags } with
          | error e => simp [handleFuseRequest, hd, h, countReplies, isReply]
          | ok r => simp [handleFuseRequest, hd, h, countReplies, isReply]
  | readReq typed =>
      cases hd : typed.Dir with
      | false => simp [handleFuseRequest, hd, countReplies, isReply]
      | true =>
          cases h : s.ReadDir ⟨typed.Node, typed.Handle, typed.Offset, typed.Size⟩ with
          | error e => simp [handleFuseRequest, hd, h, countReplies, isReply]
          | ok r => simp [handleFuseRequest, hd, h, countReplies, isReply]
  | otherReq kind => simp [handleFuseRequest, countReplies, isReply]

/-- The full trace of a lookup whose provider call succeeds: log, provider
call, the two clock readings (in this order, after the provider call), the
responding log line, and the success reply built from those readings. -/
theorem lookup_success_trace (s : FileSystem) (clock : Nat → Int)
    (node : Nat) (nm : String) (resp : LookUpInodeResponse)
    (h : s.LookUpInode { Parent := node, Name := nm } = Except.ok resp) :
    handleFuseRequest s clock
        (Bazil.Request.lookupReq { Node := node, Name := nm }) =
      [Event.logReceived,
       Event.callLookUpInode { Parent := node, Name := nm },
       Event.clockNow (clock 0), Event.clockNow (clock 1),
       Event.logResponding,
       Event.respond (Bazil.Response.lookupResp resp.Child resp.Generation
         (convertAttributes resp.Child resp.Attributes)
         (resp.AttributesExpiration - clock 0)
         (resp.EntryExpiration - clock 1))] := by
  simp [handleFuseRequest, h]

/-- After any number of successfully read requests, an end-of-stream read
makes the loop return cleanly with exactly those requests accepted. -/
theorem serveLoop_eof (reqs : List Bazil.Request) (rest : List ReadResult) :
    serveLoop (reqs.map ReadResult.request ++ ReadResult.eof :: rest) =
      some (reqs, ServeResult.ok) := by
  induction reqs with
  | nil => rfl
  | cons r rs ih =>
      simp only [List.map_cons, List.cons_append, serveLoop_cons_request, ih]

/-- After any number of successfully read requests, a non-EOF read failure
makes the loop return that failure wrapped with the read stage name. -/
theorem serveLoop_failure (reqs : List Bazil.Request) (rest : List ReadResult)
    (e : Nat) :
    serveLoop (reqs.map ReadResult.request ++ ReadResult.failure e :: rest) =
      some (reqs, ServeResult.wrappedError readRequestStage e) := by
  induction reqs with
  | nil => rfl
  | cons r rs ih =>
      simp only [List.map_cons, List.cons_append, serveLoop_cons_request, ih]

/-- The requests the serve loop accepts form a prefix, in order, of the
requests appearing in the transcript. -/
theorem serveLoop_accepted_isPrefix (reads : List ReadResult) :
    ∀ (reqs : List Bazil.Request) (out : ServeResult),
      serveLoop reads = some (reqs, out) → reqs <+: readsRequests reads := by
  induction reads with
  | nil => intro reqs out h; simp [serveLoop] at h
  | cons r rest ih =>
      intro reqs out h
      cases r with
      | eof =>
          simp only [serveLoop, Option.some.injEq, Prod.mk.injEq] at h
          rw [← h.1]
          exact List.nil_prefix
      | failure e =>
          simp only [serveLoop, Option.some.injEq, Prod.mk.injEq] at h
          rw [← h.1]
          exact List.nil_prefix
      | request req =>
          rw [serveLoop_cons_request] at h
          cases hh : serveLoop rest with
          | none => rw [hh] at h; simp at h
          | some p =>
              obtain ⟨rs, o⟩ := p
              rw [hh] at h
              simp only [Option.some.injEq, Prod.mk.injEq] at h
              obtain ⟨t, ht⟩ := ih rs o hh
              rw [← h.1]
              refine ⟨t, ?_⟩
              simp [readsRequests] at ht ⊢
              exact ht

/-- The combined trace of running the handlers in any order has one reply
per request. -/
theorem countReplies_concurrentTrace (s : FileSystem) (clock : Nat → Int)
    (order : List Bazil.Request) :
    countReplies (concurrentTrace s clock order) = order.length := by
  induction order with
  | nil => rfl
  | cons r rest ih =>
      simp only [concurrentTrace, List.map_cons, List.flatten_cons] at ih ⊢
      rw [countReplies_append, countReplies_handle, ih, List.length_cons]
      omega

/-- The full trace of a getattr whose provider call succeeds: log, provider
call, one clock reading taken after the provider call, the responding log
line, and the success reply built from that reading. -/
theorem getattr_success_trace (s : FileSystem) (clock : Nat → Int)
    (node : Nat) (resp : GetInodeAttributesResponse)
    (h : s.GetInodeAttributes { Inode := node } = Except.ok resp) :
    handleFuseRequest s clock (Bazil.Request.getattrReq { Node := node }) =
      [Event.logReceived, Event.callGetInodeAttributes { Inode := node },
       Event.clockNow (clock 0), Event.logResponding,
       Event.respond (Bazil.Response.getattrResp
         (convertAttributes node resp.Attributes)
         (resp.AttributesExpiration - clock 0))] := by
  simp [handleFuseRequest, h]

/-! ## Claim theorems -/

/-- C1: for every wire-level request accepted for handling — every
operation kind, Init, Statfs, Lookup, GetAttributes, Open, Read and
unrecognized kinds alike — and for both provider success and provider
failure outcomes, the handler performs exactly one reply (one `Respond` or
`RespondError`), never zero and never more than one. -/
theorem claim_exactly_once_reply (s : FileSystem) (clock : Nat → Int)
    (req : Bazil.Request) :
    countReplies (handleFuseRequest s clock req) = 1 :=
  countReplies_handle s clock req

/-- C2 (code-bug evidence): the code computes each validity duration as
expiration minus clock reading with no floor at zero. With both absolute
expirations equal to 0 and the clock reading 5 at translation time, the
success reply carries the negative duration -5 in both validity fields,
not 0 as the claim requires. -/
theorem claim_duration_not_floored :
    handleFuseRequest fsExpired clock5
        (Bazil.Request.lookupReq { Node := 1, Name := childName }) =
      [Event.logReceived,
       Event.callLookUpInode { Parent := 1, Name := childName },
       Event.clockNow 5, Event.clockNow 5, Event.logResponding,
       Event.respond (Bazil.Response.lookupResp 7 3
         (convertAttributes 7 attrsA) (-5) (-5))] ∧
    (-5 : Int) < 0 := by
  constructor
  · decide
  · decide

/-- C3: for every successful LookUpInode or GetInodeAttributes response,
the clock readings used for the validity durations are taken at
response-translation time — in the trace they occur strictly after the
provider-call event — and each duration is the absolute expiration minus
exactly that translation-time reading. -/
theorem claim_duration_translation_time (s : FileSystem) (clock : Nat → Int)
    (nodeL : Nat) (nm : String) (nodeG : Nat)
    (respL : LookUpInodeResponse) (respG : GetInodeAttributesResponse)
    (hl : s.LookUpInode { Parent := nodeL, Name := nm } = Except.ok respL)
    (hg : s.GetInodeAttributes { Inode := nodeG } = Except.ok respG) :
    handleFuseRequest s clock
        (Bazil.Request.lookupReq { Node := nodeL, Name := nm }) =
      [Event.logReceived,
       Event.callLookUpInode { Parent := nodeL, Name := nm },
       Event.clockNow (clock 0), Event.clockNow (clock 1),
       Event.logResponding,
       Event.respond (Bazil.Response.lookupResp respL.Child respL.Generation
         (convertAttributes respL.Child respL.Attributes)
         (respL.AttributesExpiration - clock 0)
         (respL.EntryExpiration - clock 1))] ∧
    handleFuseRequest s clock
        (Bazil.Request.getattrReq { Node := nodeG }) =
      [Event.logReceived, Event.callGetInodeAttributes { Inode := nodeG },
       Event.clockNow (clock 0), Event.logResponding,
       Event.respond (Bazil.Response.getattrResp
         (convertAttributes nodeG respG.Attributes)
         (respG.AttributesExpiration - clock 0))] :=
  ⟨lookup_success_trace s clock nodeL nm respL hl,
   getattr_success_trace s clock nodeG respG hg⟩

/-- C3 witness: with attribute expiration T0+5 (T0 = 0) and a
translation-time clock reading of T0+2, the computed duration is 3, not 5;
the entry expiration T0+9 against the second reading T0+3 gives 6. -/
theorem claim_duration_translation_time_witness :
    handleFuseRequest fsOk clockA
        (Bazil.Request.lookupReq { Node := 1, Name := childName }) =
      [Event.logReceived,
       Event.callLookUpInode { Parent := 1, Name := childName },
       Event.clockNow 2, Event.clockNow 3, Event.logResponding,
       Event.respond (Bazil.Response.lookupResp 7 3
         (convertAttributes 7 attrsA) 3 6)] ∧
    handleFuseRequest fsOk clockA
        (Bazil.Request.getattrReq { Node := 4 }) =
      [Event.logReceived, Event.callGetInodeAttributes { Inode := 4 },
       Event.clockNow 2, Event.logResponding,
       Event.respond (Bazil.Response.getattrResp
         (convertAttributes 4 attrsA) 3)] := by
  have h := claim_duration_translation_time fsOk clockA 1 childName 4
    lookRespA getattrRespA rfl rfl
  exact ⟨h.1, h.2⟩

/-- C4: an Open request or a Read request whose directory flag is unset is
answered with the ENOSYS error, and no provider operation is invoked for
that request. -/
theorem claim_file_mode_enosys (s : FileSystem) (clock : Nat → Int)
    (o : Bazil.OpenRequest) (r : Bazil.ReadRequest)
    (ho : o.Dir = false) (hr : r.Dir = false) :
    handleFuseRequest s clock (Bazil.Request.openReq o) =
      [Event.logReceived, Event.logUnsupported, Event.respondError ENOSYS] ∧
    handleFuseRequest s clock (Bazil.Request.readReq r) =
      [Event.logReceived, Event.logUnsupported, Event.respondError ENOSYS] ∧
    countProviderCalls
      (handleFuseRequest s clock (Bazil.Request.openReq o)) = 0 ∧
    countProviderCalls
      (handleFuseRequest s clock (Bazil.Request.readReq r)) = 0 := by
  refine ⟨?_, ?_, ?_, ?_⟩ <;>
    simp [handleFuseRequest, ho, hr, countProviderCalls, isProviderCall]

/-- C4 witness: concrete file-mode Open and Read requests are both answered
with ENOSYS and invoke no provider operation. -/
theorem claim_file_mode_enosys_witness :
    handleFuseRequest fsOk clockA
        (Bazil.Request.openReq { Node := 1, Flags := 0, Dir := false }) =
      [Event.logReceived, Event.logUnsupported, Event.respondError ENOSYS] ∧
    handleFuseRequest fsOk clockA
        (Bazil.Request.readReq
          { Node := 1, Handle := 2, Offset := 0, Size := 4096,
            Dir := false }) =
      [Event.logReceived, Event.logUnsupported, Event.respondError ENOSYS] ∧
    countProviderCalls (handleFuseRequest fsOk clockA
      (Bazil.Request.openReq { Node := 1, Flags := 0, Dir := false })) = 0 ∧
    countProviderCalls (handleFuseRequest fsOk clockA
      (Bazil.Request.readReq
        { Node := 1, Handle := 2, Offset := 0, Size := 4096,
          Dir := false })) = 0 :=
  claim_file_mode_enosys fsOk clockA ⟨1, 0, false⟩ ⟨1, 2, 0, 4096, false⟩
    rfl rfl

/-- C5: any wire request of a kind outside the known set is answered with
the ENOSYS error, is logged, is not forwarded to the provider, and the
handler completes normally with exactly that one reply. -/
theorem claim_unrecognized_enosys (s : FileSystem) (clock : Nat → Int)
    (kind : Nat) :
    handleFuseRequest s clock (Bazil.Request.otherReq kind) =
      [Event.logReceived, Event.logUnsupported, Event.respondError ENOSYS] ∧
    countProviderCalls
      (handleFuseRequest s clock (Bazil.Request.otherReq kind)) = 0 ∧
    countReplies
      (handleFuseRequest s clock (Bazil.Request.otherReq kind)) = 1 := by
  refine ⟨rfl, ?_, ?_⟩ <;>
    simp [handleFuseRequest, countProviderCalls, countReplies,
      isProviderCall, isReply]

/-- C6: when the transport read yields end-of-stream after any number of
requests, the serve loop returns no error; for any other read failure it
returns that failure wrapped with the failing read stage. -/
theorem claim_serve_eof_and_failure (reqs : List Bazil.Request)
    (rest : List ReadResult) (e : Nat) :
    serveLoop (reqs.map ReadResult.request ++ ReadResult.eof :: rest) =
      some (reqs, ServeResult.ok) ∧
    serveLoop (reqs.map ReadResult.request ++ ReadResult.failure e :: rest) =
      some (reqs, ServeResult.wrappedError readRequestStage e) :=
  ⟨serveLoop_eof reqs rest, serveLoop_failure reqs rest e⟩

/-- C7: whenever a provider call (Init, LookUpInode, GetInodeAttributes,
OpenDir or ReadDir) returns an error, the wire reply is an error reply
carrying that same error, and no response conversion happens: the trace
goes straight from the provider call to the error-responding log line and
the error reply, with in particular no clock reading. -/
theorem claim_provider_error_passthrough (s : FileSystem)
    (clock : Nat → Int) (iu ig : Nat) (ln : Nat) (nm : String) (gn : Nat)
    (onode oflags : Nat) (rnode rhandle : Nat) (roff : Int) (rsize : Nat)
    (ei el eg eo er : FsError)
    (hi : s.Init { Uid := iu, Gid := ig } = Except.error ei)
    (hl : s.LookUpInode { Parent := ln, Name := nm } = Except.error el)
    (hg : s.GetInodeAttributes { Inode := gn } = Except.error eg)
    (ho : s.OpenDir { Inode := onode, Flags := oflags } = Except.error eo)
    (hr : s.ReadDir
        { Inode := rnode, Handle := rhandle, Offset := roff, Size := rsize }
      = Except.error er) :
    handleFuseRequest s clock
        (Bazil.Request.initReq { Uid := iu, Gid := ig }) =
      [Event.logReceived, Event.callInit { Uid := iu, Gid := ig },
       Event.logResponding, Event.respondError ei] ∧
    handleFuseRequest s clock
        (Bazil.Request.lookupReq { Node := ln, Name := nm }) =
      [Event.logReceived, Event.callLookUpInode { Parent := ln, Name := nm },
       Event.logResponding, Event.respondError el] ∧
    handleFuseRequest s clock
        (Bazil.Request.getattrReq { Node := gn }) =
      [Event.logReceived, Event.callGetInodeAttributes { Inode := gn },
       Event.logResponding, Event.respondError eg] ∧
    handleFuseRequest s clock
        (Bazil.Request.openReq
          { Node := onode, Flags := oflags, Dir := true }) =
      [Event.logReceived,
       Event.callOpenDir { Inode := onode, Flags := oflags },
       Event.logResponding, Event.respondError eo] ∧
    handleFuseRequest s clock
        (Bazil.Request.readReq
          { Node := rnode, Handle := rhandle, Offset := roff,
            Size := rsize, Dir := true }) =
      [Event.logReceived,
       Event.callReadDir
         { Inode := rnode, Handle := rhandle, Offset := roff,
           Size := rsize },
       Event.logResponding, Event.respondError er] ∧
    countClockReads (handleFuseRequest s clock
      (Bazil.Request.lookupReq { Node := ln, Name := nm })) = 0 ∧
    countClockReads (handleFuseRequest s clock
      (Bazil.Request.getattrReq { Node := gn })) = 0 := by
  refine ⟨?_, ?_, ?_, ?_, ?_, ?_, ?_⟩ <;>
    simp [handleFuseRequest, hi, hl, hg, ho, hr, countClockReads,
      isClockRead]

/-- C7 witness: a provider whose LookUpInode fails for name "missing" under
parent inode 1 produces exactly the error reply carrying that error, with
no clock reading (hence no duration conversion) in the trace. -/
theorem claim_provider_error_passthrough_witness :
    handleFuseRequest fsErr clockA
        (Bazil.Request.lookupReq { Node := 1, Name := missingName }) =
      [Event.logReceived,
       Event.callLookUpInode { Parent := 1, Name := missingName },
       Event.logResponding, Event.respondError (FsError.errorCode 13)] ∧
    countClockReads (handleFuseRequest fsErr clockA
      (Bazil.Request.lookupReq { Node := 1, Name := missingName })) = 0 := by
  have h := claim_provider_error_passthrough fsErr clockA 0 0 1 missingName
    2 3 0 4 5 0 4096 (FsError.errorCode 13) (FsError.errorCode 13)
    (FsError.errorCode 13) (FsError.errorCode 13) (FsError.errorCode 13)
    rfl rfl rfl rfl rfl
  exact ⟨h.2.1, h.2.2.2.2.2.1⟩

/-- C8: a successful LookUpInode reply carries the child inode identifier
as the node, the generation, the attributes converted to wire form with
every field copied unchanged, and the attribute- and entry-validity
durations computed from the clock. -/
theorem claim_lookup_reply_content (s : FileSystem) (clock : Nat → Int)
    (node : Nat) (nm : String) (resp : LookUpInodeResponse)
    (h : s.LookUpInode { Parent := node, Name := nm } = Except.ok resp) :
    Event.respond (Bazil.Response.lookupResp resp.Child resp.Generation
        { Inode := resp.Child, Size := resp.Attributes.Size,
          Mode := resp.Attributes.Mode, Atime := resp.Attributes.Atime,
          Mtime := resp.Attributes.Mtime, Crtime := resp.Attributes.Crtime,
          Uid := resp.Attributes.Uid, Gid := resp.Attributes.Gid }
        (resp.AttributesExpiration - clock 0)
        (resp.EntryExpiration - clock 1)) ∈
      handleFuseRequest s clock
        (Bazil.Request.lookupReq { Node := node, Name := nm }) ∧
    convertAttributes resp.Child resp.Attributes =
      { Inode := resp.Child, Size := resp.Attributes.Size,
        Mode := resp.Attributes.Mode, Atime := resp.Attributes.Atime,
        Mtime := resp.Attributes.Mtime, Crtime := resp.Attributes.Crtime,
        Uid := resp.Attributes.Uid, Gid := resp.Attributes.Gid } := by
  rw [lookup_success_trace s clock node nm resp h]
  exact ⟨by simp [convertAttributes], rfl⟩

/-- C8 witness: the concrete successful lookup reply carries the child
inode 7, generation 3, the attribute fields copied unchanged, and the
clock-computed durations 3 and 6. -/
theorem claim_lookup_reply_content_witness :
    Event.respond (Bazil.Response.lookupResp 7 3
        { Inode := 7, Size := 100, Mode := 420, Atime := 10, Mtime := 20,
          Crtime := 30, Uid := 1000, Gid := 1001 } 3 6) ∈
      handleFuseRequest fsOk clockA
        (Bazil.Request.lookupReq { Node := 1, Name := childName }) := by
  have h := claim_lookup_reply_content fsOk clockA 1 childName lookRespA rfl
  exact h.1

/-- C9: the serve loop accepts requests strictly in transport order (the
accepted list is an in-order prefix of the requests in the transcript), and
the combined trace of the independently scheduled handler tasks completing
in any order — any permutation of the combined events — contains exactly
one reply per accepted request. -/
theorem claim_read_order_reply_order (s : FileSystem) (clock : Nat → Int)
    (reads : List ReadResult) (reqs : List Bazil.Request)
    (out : ServeResult) (h : serveLoop reads = some (reqs, out)) :
    reqs <+: readsRequests reads ∧
    ∀ t : List Event, t.Perm (concurrentTrace s clock reqs) →
      countReplies t = reqs.length := by
  refine ⟨serveLoop_accepted_isPrefix reads reqs out h, ?_⟩
  intro t ht
  rw [countReplies_perm ht, countReplies_concurrentTrace]

/-- C9 witness: a transcript with two requests then end-of-stream is
accepted in order, and the completion order with the second request's task
finishing first still yields exactly one reply per request. -/
theorem claim_read_order_reply_order_witness :
    serveLoop readsW = some ([reqW1, reqW2], ServeResult.ok) ∧
    countReplies (concurrentTrace fsOk clockA [reqW2, reqW1]) = 2 := by
  refine ⟨by decide, ?_⟩
  have h := (claim_read_order_reply_order fsOk clockA readsW [reqW1, reqW2]
    ServeResult.ok (by decide)).2
  exact h (concurrentTrace fsOk clockA [reqW2, reqW1]) (by decide)

/-- C10: in a successful lookup the two validity durations come from two
separate sequential clock readings: the trace's clock readings are exactly
`clock 0` then `clock 1`, the attribute validity subtracts the first
reading and the entry validity the second — equivalently, the instant the
entry validity is measured against is the first reading plus however much
the clock advanced between the two calls. -/
theorem claim_two_clock_readings (s : FileSystem) (clock : Nat → Int)
    (node : Nat) (nm : String) (resp : LookUpInodeResponse)
    (h : s.LookUpInode { Parent := node, Name := nm } = Except.ok resp) :
    (handleFuseRequest s clock
        (Bazil.Request.lookupReq { Node := node, Name := nm })).filter
        isClockRead =
      [Event.clockNow (clock 0), Event.clockNow (clock 1)] ∧
    countClockReads (handleFuseRequest s clock
      (Bazil.Request.lookupReq { Node := node, Name := nm })) = 2 ∧
    Event.respond (Bazil.Response.lookupResp resp.Child resp.Generation
        (convertAttributes resp.Child resp.Attributes)
        (resp.AttributesExpiration - clock 0)
        (resp.EntryExpiration - (clock 0 + (clock 1 - clock 0)))) ∈
      handleFuseRequest s clock
        (Bazil.Request.lookupReq { Node := node, Name := nm }) := by
  rw [lookup_success_trace s clock node nm resp h]
  have hc : clock 0 + (clock 1 - clock 0) = clock 1 := by ring
  rw [hc]
  exact ⟨by simp [isClockRead], by simp [countClockReads, isClockRead],
    by simp⟩

/-- C10 witness: with the concrete clock advancing from 2 to 3 between the
two readings, the trace's clock readings are exactly 2 then 3, measured
sequentially. -/
theorem claim_two_clock_readings_witness :
    (handleFuseRequest fsOk clockA
        (Bazil.Request.lookupReq { Node := 1, Name := childName })).filter
        isClockRead =
      [Event.clockNow 2, Event.clockNow 3] ∧
    countClockReads (handleFuseRequest fsOk clockA
      (Bazil.Request.lookupReq { Node := 1, Name := childName })) = 2 := by
  have h := claim_two_clock_readings fsOk clockA 1 childName lookRespA rfl
  exact ⟨h.1, h.2.1⟩
